import Mathlib

/-!
Verification of the Holiday-Destinations-and-Activities-Generator core:
a shallow embedding, in Lean 4, of the resilient API-request executor
(`src/services/destination_service.py`), the two-tier cache manager
(`src/core/cache.py`), the fine-tuning job monitor
(`src/core/fine_tuning.py`), the fallback destination parser and the
activity-type normalization (`src/services/destination_service.py`),
together with theorems about their behaviour.

Python string primitives (`in`, `lower`, `strip`, `split`, `startswith`)
are embedded as executable functions over `List Char` so that every
definition evaluates inside the kernel.
-/

/-! ## Python string primitives -/

/-- If `lead` is an initial segment of `s`, return the remaining
characters; otherwise `none`.  Backs `startswith` and substring search. -/
def charsAfterLead : List Char → List Char → Option (List Char)
  | s, [] => some s
  | [], _ :: _ => none
  | c :: s, d :: sub => if c = d then charsAfterLead s sub else none

/-- Whether `sub` occurs contiguously inside `s` (Python `sub in s`;
the empty list occurs in everything, as in Python). -/
def containsChars : List Char → List Char → Bool
  | s, sub =>
    match charsAfterLead s sub with
    | some _ => true
    | none =>
      match s with
      | [] => false
      | _ :: t => containsChars t sub

/-- Python `sub in s` on strings. -/
def strContains (s sub : String) : Bool := containsChars s.data sub.data

/-- Python `s.startswith(lead)`. -/
def pyStartsWith (s lead : String) : Bool := (charsAfterLead s.data lead.data).isSome

/-- Python `s.lower()` (ASCII case folding, all the embedded code needs). -/
def pyLower (s : String) : String := String.mk (s.data.map Char.toLower)

/-- The characters Python `str.strip()` removes. -/
def isPySpace (c : Char) : Bool :=
  c = ' ' || c = '\t' || c = '\n' || c = '\r' || c = '\x0b' || c = '\x0c'

/-- Python `s.strip()`. -/
def pyStrip (s : String) : String :=
  String.mk (((s.data.dropWhile isPySpace).reverse.dropWhile isPySpace).reverse)

/-- Split a character list on a single separator character
(Python `s.split(sep)` for a one-character separator). -/
def splitChar (sep : Char) : List Char → List (List Char)
  | [] => [[]]
  | c :: rest =>
    let r := splitChar sep rest
    if c = sep then [] :: r
    else (c :: r.headD []) :: r.tail

/-- Python `s.split(sep)` for a one-character separator. -/
def pySplit (s : String) (sep : Char) : List String :=
  (splitChar sep s.data).map String.mk

/-- Python `sep.join(parts)` for a one-character separator; used to model
`line.split(',', 1)` as `split` followed by rejoining the tail. -/
def pyJoin (sep : Char) (parts : List String) : String :=
  String.mk (List.intercalate [sep] (parts.map String.data))

/-! ## Resilient Request Executor (`DestinationService._safe_api_request`)

The wrapped LLM chain invocation is modelled as a function from the
zero-based attempt index to an outcome: either a response or a raised
exception carrying its message string. -/

/-- Outcome of one invocation of the wrapped operation. -/
inductive ApiOutcome (α : Type) where
  | ok (resp : α)
  | err (msg : String)
deriving DecidableEq

/-- The executor's error classification, decided by substring tests on the
lower-cased exception message. -/
inductive ApiErrorClass where
  | rateLimit
  | apiError
  | generic
deriving DecidableEq

/-- Error classification of `_safe_api_request`: `"rate limit"`/`"quota"`
substrings mean a rate-limit error, else `"api"`/`"authentication"`
substrings mean an API error, else a generic error. -/
def classify_api_error (msg : String) : ApiErrorClass :=
  let m := pyLower msg
  if strContains m "rate limit" || strContains m "quota" then ApiErrorClass.rateLimit
  else if strContains m "api" || strContains m "authentication" then ApiErrorClass.apiError
  else ApiErrorClass.generic

/-- Observable result of a `_safe_api_request` run: how many times the
operation was invoked, the sequence of back-off sleeps (in seconds, in
order), and either the returned response or the single raised
`DestinationGenerationError` message. -/
structure ApiRunResult (α : Type) where
  attempts : Nat
  sleeps : List Nat
  outcome : Except String α

/-- The retry loop `for attempt in range(max_retries)` of
`_safe_api_request`.  `attempt` is the zero-based index of the next
attempt and `left` the number of loop iterations remaining
(`left = max_retries - attempt` on every reachable call, so the Python
guard `attempt < max_retries - 1` is `0 < left - 1`, i.e. `0 < left`
after the current iteration is peeled off).  A rate-limited attempt
sleeps `retry_delay * 2 ** attempt`; API and generic errors sleep
`retry_delay`; the last attempt raises instead of sleeping. -/
def safe_api_request_go {α : Type} (op : Nat → ApiOutcome α)
    (maxRetries retryDelay : Nat) (context : String) :
    Nat → Nat → ApiRunResult α
  | attempt, 0 => ⟨attempt, [], Except.error ("Failed " ++ context ++ " after all retries")⟩
  | attempt, left + 1 =>
    match op attempt with
    | ApiOutcome.ok r => ⟨attempt + 1, [], Except.ok r⟩
    | ApiOutcome.err msg =>
      match classify_api_error msg with
      | ApiErrorClass.rateLimit =>
        let waitTime := retryDelay * 2 ^ attempt
        if 0 < left then
          let rest := safe_api_request_go op maxRetries retryDelay context (attempt + 1) left
          ⟨rest.attempts, waitTime :: rest.sleeps, rest.outcome⟩
        else
          ⟨attempt + 1, [],
            Except.error ("Rate limit exceeded after " ++ toString maxRetries ++ " attempts")⟩
      | ApiErrorClass.apiError =>
        if 0 < left then
          let rest := safe_api_request_go op maxRetries retryDelay context (attempt + 1) left
          ⟨rest.attempts, retryDelay :: rest.sleeps, rest.outcome⟩
        else
          ⟨attempt + 1, [], Except.error ("API error: " ++ msg)⟩
      | ApiErrorClass.generic =>
        if 0 < left then
          let rest := safe_api_request_go op maxRetries retryDelay context (attempt + 1) left
          ⟨rest.attempts, retryDelay :: rest.sleeps, rest.outcome⟩
        else
          ⟨attempt + 1, [], Except.error ("Unexpected error: " ++ msg)⟩

/-- `DestinationService._safe_api_request` with `settings.max_retries` and
`settings.retry_delay` passed explicitly. -/
def safe_api_request {α : Type} (op : Nat → ApiOutcome α)
    (maxRetries retryDelay : Nat) (context : String) : ApiRunResult α :=
  safe_api_request_go op maxRetries retryDelay context 0 maxRetries

/-! ## Two-tier cache (`src/core/cache.py`)

`RedisCacheBackend` and `DiskCacheBackend` are modelled with explicit
stores (`String → Option V`, value pickling elided) plus flags recording
whether the backend connection is available and whether its get/set calls
raise (every such exception is caught by the backend and turned into
`None`/`False`, exactly as in the source). -/

/-- `RedisCacheBackend`: primary tier.  `available` is the
`_available` flag set during construction; `getRaises`/`setRaises` model
the caught exceptions of `redis.get`/`redis.set`. -/
structure RedisBackend (V : Type) where
  available : Bool
  store : String → Option V
  getRaises : Bool
  setRaises : Bool

/-- `RedisCacheBackend.get`: `None` when unavailable or on a caught
exception, else the stored value. -/
def RedisBackend.get {V : Type} (b : RedisBackend V) (key : String) : Option V :=
  if !b.available then none
  else if b.getRaises then none
  else b.store key

/-- `RedisCacheBackend.set`: `False` when unavailable or on a caught
exception, else stores the value (ttl only schedules expiry, which is
invisible to an immediate read) and returns `True`. -/
def RedisBackend.set {V : Type} (b : RedisBackend V) (key : String) (value : V)
    (_ttl : Nat) : Bool × RedisBackend V :=
  if !b.available then (false, b)
  else if b.setRaises then (false, b)
  else (true, { b with store := fun k => if k = key then some value else b.store k })

/-- `DiskCacheBackend`: durable tier; always constructed, no
availability flag. -/
structure DiskBackend (V : Type) where
  store : String → Option V
  getRaises : Bool
  setRaises : Bool

/-- `DiskCacheBackend.get`: `None` on a caught exception, else the stored
value. -/
def DiskBackend.get {V : Type} (b : DiskBackend V) (key : String) : Option V :=
  if b.getRaises then none
  else b.store key

/-- `DiskCacheBackend.set`: `False` on a caught exception, else stores the
value and returns `True`. -/
def DiskBackend.set {V : Type} (b : DiskBackend V) (key : String) (value : V)
    (_ttl : Nat) : Bool × DiskBackend V :=
  if b.setRaises then (false, b)
  else (true, { b with store := fun k => if k = key then some value else b.store k })

/-- `CacheManager`: primary Redis backend, fallback disk backend and the
`settings.enable_caching` flag read at construction. -/
structure CacheManager (V : Type) where
  primary : RedisBackend V
  fallback : DiskBackend V
  enabled : Bool

/-- `CacheManager.get`: `None` when caching is disabled; otherwise the
primary tier is consulted first and the fallback tier only on a primary
miss. -/
def CacheManager.get {V : Type} (cm : CacheManager V) (key : String) : Option V :=
  if !cm.enabled then none
  else
    match cm.primary.get key with
    | some v => some v
    | none =>
      match cm.fallback.get key with
      | some v => some v
      | none => none

/-- `ttl = ttl or settings.cache_ttl` with Python truthiness: `None` and
`0` both fall back to the configured default. -/
def effective_ttl (ttl : Option Nat) (cacheTtl : Nat) : Nat :=
  match ttl with
  | none => cacheTtl
  | some n => if n = 0 then cacheTtl else n

/-- `CacheManager.set`: `False` when caching is disabled; otherwise the
primary write is attempted, the fallback write is always attempted, and
the overall result is the disjunction of the two per-tier results. -/
def CacheManager.set {V : Type} (cm : CacheManager V) (key : String) (value : V)
    (ttl : Option Nat) (cacheTtl : Nat) : Bool × CacheManager V :=
  if !cm.enabled then (false, cm)
  else
    let t := effective_ttl ttl cacheTtl
    let ps := cm.primary.set key value t
    let fs := cm.fallback.set key value t
    (ps.1 || fs.1, { cm with primary := ps.2, fallback := fs.2 })

/-! ## Cache key generation (`CacheManager._generate_cache_key`)

`key_data = f"{prefix}:{str(args)}:{str(sorted(kwargs.items()))}"`,
then `hashlib.md5(key_data.encode()).hexdigest()`.  The md5 hex digest is
an opaque function of the canonical string and is taken as a parameter;
positional arguments and keyword values are strings (`str(...)` rendering
of richer arguments is orthogonal to the property proved).  `sorted` on
`(name, value)` tuples is Python's lexicographic tuple order. -/

/-- Python `repr` of a string, as rendered inside `str(tuple)`
(escaping elided: the embedded inputs carry no quotes). -/
def pyRepr (s : String) : String := "'" ++ s ++ "'"

/-- Python `str(args)` for a tuple of strings, including the trailing
comma of 1-tuples. -/
def pyStrTuple (args : List String) : String :=
  match args with
  | [] => "()"
  | [a] => "(" ++ pyRepr a ++ ",)"
  | _ => "(" ++ String.intercalate ", " (args.map pyRepr) ++ ")"

/-- Python `str(...)` of a list of `(name, value)` tuples of strings. -/
def pyStrPairList (l : List (String × String)) : String :=
  "[" ++ String.intercalate ", "
      (l.map fun p => "(" ++ pyRepr p.1 ++ ", " ++ pyRepr p.2 ++ ")") ++ "]"

/-- Python's `≤` on `(name, value)` string tuples: lexicographic. -/
def pyPairLe (a b : String × String) : Prop :=
  a.1 < b.1 ∨ (a.1 = b.1 ∧ a.2 ≤ b.2)

instance : DecidableRel pyPairLe := fun a b => by
  unfold pyPairLe; infer_instance

/-- Python `sorted(kwargs.items())`: the unique `pyPairLe`-sorted
arrangement, computed by insertion sort. -/
def sortKwargs (kwargs : List (String × String)) : List (String × String) :=
  List.insertionSort pyPairLe kwargs

/-- `CacheManager._generate_cache_key`, with the md5 hex digest abstracted
as `md5Hex`. -/
def generate_cache_key (md5Hex : String → String) (pre : String)
    (args : List String) (kwargs : List (String × String)) : String :=
  md5Hex (pre ++ ":" ++ pyStrTuple args ++ ":" ++ pyStrPairList (sortKwargs kwargs))

/-! ## Fine-tuning job monitor (`FineTuningManager.monitor_fine_tuning_job`)

The provider's `fine_tuning.jobs.retrieve` call is modelled as a function
from the zero-based poll index to either a job record or a raised
exception.  Wall-clock time advances only through the monitor's own
`time.sleep` calls (status retrieval is instantaneous), so the elapsed
time is the sum of the sleeps performed so far. -/

/-- The fields of a polled job record the monitor reads. -/
structure FineTuningJob where
  status : String
  fine_tuned_model : Option String
  error : Option String
deriving DecidableEq

/-- One poll of the provider: a job record, or an exception raised while
querying the status. -/
inductive PollOutcome where
  | job (j : FineTuningJob)
  | raised (msg : String)
deriving DecidableEq

/-- The dictionary `monitor_fine_tuning_job` returns, instrumented with
`polls`, the number of status retrievals issued (retrievals that raised
included); fields a given return path does not set are `none`. -/
structure MonitorOutcome where
  status : String
  model_id : Option String
  error : Option String
  elapsed_time : Nat
  polls : Nat
deriving DecidableEq

/-- The `while True` polling loop of `monitor_fine_tuning_job`.  At the
top of each iteration the elapsed-time budget is checked; then one poll
is issued: `succeeded`/`failed`/`cancelled` return immediately, a
`running` job sleeps 30 s, `validating_files`/`queued` sleep 60 s, an
unknown status sleeps 30 s, and a raised poll sleeps 60 s and then fails
with `monitoring_failed` if the budget is already exhausted. -/
def monitor_go (poll : Nat → PollOutcome) (maxWait : Nat)
    (elapsed polls : Nat) : MonitorOutcome :=
  if elapsed > maxWait then
    { status := "timeout", model_id := none,
      error := some ("Monitoring timeout after " ++ toString maxWait ++ " seconds"),
      elapsed_time := elapsed, polls := polls }
  else
    match poll polls with
    | PollOutcome.raised msg =>
      if elapsed + 60 > maxWait then
        { status := "monitoring_failed", model_id := none,
          error := some ("Monitoring failed: " ++ msg),
          elapsed_time := elapsed + 60, polls := polls + 1 }
      else monitor_go poll maxWait (elapsed + 60) (polls + 1)
    | PollOutcome.job j =>
      if j.status = "succeeded" then
        { status := "completed", model_id := j.fine_tuned_model, error := none,
          elapsed_time := elapsed, polls := polls + 1 }
      else if j.status = "failed" then
        { status := "failed", model_id := none, error := j.error,
          elapsed_time := elapsed, polls := polls + 1 }
      else if j.status = "cancelled" then
        { status := "cancelled", model_id := none, error := none,
          elapsed_time := elapsed, polls := polls + 1 }
      else if j.status = "running" then
        monitor_go poll maxWait (elapsed + 30) (polls + 1)
      else if j.status = "validating_files" || j.status = "queued" then
        monitor_go poll maxWait (elapsed + 60) (polls + 1)
      else
        monitor_go poll maxWait (elapsed + 30) (polls + 1)
termination_by maxWait + 1 - elapsed
decreasing_by all_goals omega

/-- `monitor_fine_tuning_job`, started with zero elapsed time and no
polls issued. -/
def monitor_fine_tuning_job (poll : Nat → PollOutcome) (maxWait : Nat) : MonitorOutcome :=
  monitor_go poll maxWait 0 0

/-! ## Fallback destination parsing (`DestinationService._fallback_parse`,
destination branch) -/

/-- One entry of the `destinations` list built by the fallback parser
(placeholder coordinates and rating are exact constants, modelled in ℚ). -/
structure FallbackDestination where
  place : String
  country : String
  description : String
  best_time_to_visit : String
  lat : ℚ
  lng : ℚ
  rating : ℚ
deriving DecidableEq

/-- The per-line step of the fallback parser: a line is kept when it
contains a comma and starts with neither `'\x7b'` nor `'"'`; the text
before the first comma is the place, the rest is the country, and the
remaining fields are synthesized placeholders. -/
def fallback_dest_line (line : String) : Option FallbackDestination :=
  let parts := pySplit line ','
  if parts.length != 1 && !(pyStartsWith line "\x7b") && !(pyStartsWith line "\"") then
    some { place := pyStrip (parts.headD ""),
           country := pyStrip (pyJoin ',' parts.tail),
           description := "Generated destination",
           best_time_to_visit := "Year-round",
           lat := 0, lng := 0, rating := 4 }
  else none

/-- `_fallback_parse` when `"destination" in context.lower()`: strip and
drop blank lines, look at the first 5 lines only, and parse each with
`fallback_dest_line`. -/
def fallback_parse_destinations (response : String) : List FallbackDestination :=
  let lines := ((pySplit response '\n').map pyStrip).filter (fun l => l != "")
  (lines.take 5).filterMap fallback_dest_line

/-! ## Activity-type normalization
(`DestinationService._generate_activities_for_destination`) -/

/-- The `ActivityType` enum of `src/models/schemas.py`, in declaration
order (which is the iteration order of `for valid_type in ActivityType`). -/
inductive ActivityType where
  | OUTDOOR
  | INDOOR
  | CULTURAL
  | ADVENTURE
  | RELAXATION
  | EDUCATIONAL
deriving DecidableEq

/-- The string value of each `ActivityType` member. -/
def ActivityType.value : ActivityType → String
  | ActivityType.OUTDOOR => "Outdoor"
  | ActivityType.INDOOR => "Indoor"
  | ActivityType.CULTURAL => "Cultural"
  | ActivityType.ADVENTURE => "Adventure"
  | ActivityType.RELAXATION => "Relaxation"
  | ActivityType.EDUCATIONAL => "Educational"

/-- Iteration order of `ActivityType` members. -/
def activityTypeOrder : List ActivityType :=
  [ActivityType.OUTDOOR, ActivityType.INDOOR, ActivityType.CULTURAL,
   ActivityType.ADVENTURE, ActivityType.RELAXATION, ActivityType.EDUCATIONAL]

/-- `activity_type_mapping`: the composite-type alias table, in source
order. -/
def activity_type_mapping : List (String × String) :=
  [("Cultural/Educational", "Cultural"),
   ("Educational/Cultural", "Educational"),
   ("Outdoor/Adventure", "Outdoor"),
   ("Adventure/Outdoor", "Adventure"),
   ("Indoor/Cultural", "Indoor"),
   ("Cultural/Indoor", "Cultural"),
   ("Relaxation/Indoor", "Relaxation"),
   ("Indoor/Relaxation", "Indoor")]

/-- `ActivityType(s)`: the enum constructor, which succeeds exactly when
`s` equals the value of some member. -/
def exact_activity_type (s : String) : Option ActivityType :=
  activityTypeOrder.find? (fun t => t.value == s)

/-- The normalization performed on `act_info["activity_type"]`: apply the
alias table if the string is a key of it, then try the enum constructor;
on `ValueError`, take the first member whose lower-cased value is a
substring of the lower-cased string, and fall back to `OUTDOOR`. -/
def normalize_activity_type (s0 : String) : ActivityType :=
  let s := (activity_type_mapping.lookup s0).getD s0
  match exact_activity_type s with
  | some t => t
  | none =>
    match activityTypeOrder.find? (fun t => strContains (pyLower s) (pyLower t.value)) with
    | some t => t
    | none => ActivityType.OUTDOOR

/-! # Theorems -/

/-! ## Order instances for the kwargs sort -/

instance : IsTotal (String × String) pyPairLe :=
  ⟨fun a b => by
    rcases lt_trichotomy a.1 b.1 with h | h | h
    · exact Or.inl (Or.inl h)
    · rcases le_total a.2 b.2 with h2 | h2
      · exact Or.inl (Or.inr ⟨h, h2⟩)
      · exact Or.inr (Or.inr ⟨h.symm, h2⟩)
    · exact Or.inr (Or.inl h)⟩

instance : IsTrans (String × String) pyPairLe :=
  ⟨fun a b c hab hbc => by
    rcases hab with h1 | ⟨h1, h1b⟩ <;> rcases hbc with h2 | ⟨h2, h2b⟩
    · exact Or.inl (h1.trans h2)
    · exact Or.inl (lt_of_lt_of_le h1 (le_of_eq h2))
    · exact Or.inl (lt_of_le_of_lt (le_of_eq h1) h2)
    · exact Or.inr ⟨h1.trans h2, h1b.trans h2b⟩⟩

instance : IsAntisymm (String × String) pyPairLe :=
  ⟨fun a b hab hba => by
    rcases hab with h1 | ⟨h1, h1b⟩ <;> rcases hba with h2 | ⟨h2, h2b⟩
    · exact absurd (h1.trans h2) (lt_irrefl _)
    · exact absurd h1 (by rw [h2]; exact lt_irrefl _)
    · exact absurd h2 (by rw [h1]; exact lt_irrefl _)
    · exact Prod.ext h1 (le_antisymm h1b h2b)⟩

/-! ## Resilient Request Executor -/

/-- If every attempt in the remaining window fails, the loop uses every
remaining iteration and ends in a raise. -/
lemma safe_api_request_go_all_fail {α : Type} (op : Nat → ApiOutcome α)
    (R d : Nat) (ctx : String) :
    ∀ left attempt, 0 < left →
      (∀ i, attempt ≤ i → i < attempt + left → ∃ m, op i = ApiOutcome.err m) →
      (safe_api_request_go op R d ctx attempt left).attempts = attempt + left ∧
      ∃ e, (safe_api_request_go op R d ctx attempt left).outcome = Except.error e := by
  intro left
  induction left with
  | zero => intro attempt h; exact absurd h (lt_irrefl 0)
  | succ n ih =>
    intro attempt _ hfail
    obtain ⟨m, hm⟩ := hfail attempt le_rfl (by omega)
    have hnext : 0 < n →
        (safe_api_request_go op R d ctx (attempt + 1) n).attempts = attempt + 1 + n ∧
        ∃ e, (safe_api_request_go op R d ctx (attempt + 1) n).outcome = Except.error e :=
      fun hn => ih (attempt + 1) hn (fun i hi1 hi2 => hfail i (by omega) (by omega))
    simp only [safe_api_request_go, hm]
    cases classify_api_error m <;> by_cases hn : 0 < n <;>
      first
        | (simp only [if_pos hn]
           exact ⟨((hnext hn).1).trans (by omega), (hnext hn).2⟩)
        | (simp only [if_neg hn]
           refine ⟨?_, ⟨_, rfl⟩⟩
           show attempt + 1 = attempt + (n + 1)
           omega)

/-- The run only consults the operation on the attempts of the remaining
window. -/
lemma safe_api_request_go_congr {α : Type} (op op2 : Nat → ApiOutcome α)
    (R d : Nat) (ctx : String) :
    ∀ left attempt, (∀ i, attempt ≤ i → i < attempt + left → op i = op2 i) →
      safe_api_request_go op R d ctx attempt left
        = safe_api_request_go op2 R d ctx attempt left := by
  intro left
  induction left with
  | zero => intro attempt _; rfl
  | succ n ih =>
    intro attempt hagree
    have h0 : op attempt = op2 attempt := hagree attempt le_rfl (by omega)
    have hrec : safe_api_request_go op R d ctx (attempt + 1) n
        = safe_api_request_go op2 R d ctx (attempt + 1) n :=
      ih (attempt + 1) (fun i hi1 hi2 => hagree i (by omega) (by omega))
    simp only [safe_api_request_go, ← h0]
    cases op attempt with
    | ok r => rfl
    | err m =>
      cases classify_api_error m <;> simp only [] <;>
        by_cases hn : 0 < n <;>
          simp only [if_pos, if_neg, hn, hrec, if_true, if_false, ite_true, ite_false]

/-- C1: for every configured `max_retries R ≥ 1` and every operation that
fails on every invocation, `_safe_api_request` invokes the operation
exactly `R` times and then raises exactly one
`DestinationGenerationError`; moreover the run is unchanged by the
behaviour of the operation beyond attempt `R`, so no further attempt is
made. -/
theorem c1_always_failing_op_raises_after_R_attempts {α : Type}
    (op : Nat → ApiOutcome α) (R d : Nat) (ctx : String)
    (hR : 1 ≤ R) (hfail : ∀ i, i < R → ∃ m, op i = ApiOutcome.err m) :
    (safe_api_request op R d ctx).attempts = R ∧
    (∃ e, (safe_api_request op R d ctx).outcome = Except.error e) ∧
    ∀ op2 : Nat → ApiOutcome α, (∀ i, i < R → op2 i = op i) →
      safe_api_request op2 R d ctx = safe_api_request op R d ctx := by
  have h := safe_api_request_go_all_fail op R d ctx R 0 (by omega)
    (fun i h1 h2 => hfail i (by omega))
  refine ⟨h.1.trans (by omega), h.2, ?_⟩
  intro op2 hag
  exact safe_api_request_go_congr op2 op R d ctx R 0 (fun i h1 h2 => hag i (by omega))

/-- Witness for C1 at `max_retries = 3`, `retry_delay = 2` and an
operation that always raises. -/
theorem c1_always_failing_op_raises_after_R_attempts_witness :
    (safe_api_request (fun _ => ApiOutcome.err (α := Nat) "boom") 3 2
        "destination generation").attempts = 3 ∧
    ∃ e, (safe_api_request (fun _ => ApiOutcome.err (α := Nat) "boom") 3 2
        "destination generation").outcome = Except.error e := by
  have h := c1_always_failing_op_raises_after_R_attempts (α := Nat)
    (fun _ => ApiOutcome.err "boom") 3 2 "destination generation"
    (by norm_num) (fun i _ => ⟨"boom", rfl⟩)
  exact ⟨h.1, h.2.1⟩

/-- A run whose first attempts all fail rate-limited and whose next
attempt succeeds: every failed attempt at absolute index `a` sleeps
`d * 2 ^ a`. -/
lemma safe_api_request_go_rate_limited_then_ok {α : Type}
    (op : Nat → ApiOutcome α) (R d : Nat) (ctx : String) (r : α) :
    ∀ n attempt left, n < left →
      (∀ i, attempt ≤ i → i < attempt + n →
        ∃ m, op i = ApiOutcome.err m ∧ classify_api_error m = ApiErrorClass.rateLimit) →
      op (attempt + n) = ApiOutcome.ok r →
      safe_api_request_go op R d ctx attempt left =
        ⟨attempt + n + 1, (List.range' attempt n).map (fun a => d * 2 ^ a), Except.ok r⟩ := by
  intro n
  induction n with
  | zero =>
    intro attempt left hlt hfail hok
    obtain ⟨l, rfl⟩ : ∃ l, left = l + 1 := ⟨left - 1, by omega⟩
    rw [show attempt + 0 = attempt from rfl] at hok
    simp [safe_api_request_go, hok, List.range']
  | succ n ih =>
    intro attempt left hlt hfail hok
    obtain ⟨l, rfl⟩ : ∃ l, left = l + 1 := ⟨left - 1, by omega⟩
    obtain ⟨m, hm, hcl⟩ := hfail attempt le_rfl (by omega)
    have hl : 0 < l := by omega
    have hrec := ih (attempt + 1) l (by omega)
      (fun i hi1 hi2 => hfail i (by omega) (by omega))
      (by rw [show attempt + 1 + n = attempt + (n + 1) from by omega]; exact hok)
    simp only [safe_api_request_go, hm, hcl, if_pos hl, hrec, List.range'_succ, List.map_cons]
    congr 1
    omega

/-- Elementwise view of the sleep sequence `[d * 2 ^ 0, …, d * 2 ^ (n-1)]`. -/
lemma range_map_getD (f : Nat → Nat) (n a : Nat) (h : a < n) :
    (((List.range n).map f).getD a 0) = f a := by
  rw [List.getD_eq_getElem?_getD, List.getElem?_map, List.getElem?_range h]
  rfl

/-- C2: an operation that fails rate-limited on its first `N - 1`
invocations and succeeds on invocation `N` (with `N ≤ max_retries`)
makes `_safe_api_request` return the successful response on attempt `N`;
the sleep after the failed attempt of zero-based index `a` is
`retry_delay * 2 ^ a`, hence each backoff delay is exactly twice the
previous one, and strictly larger whenever `retry_delay ≥ 1`. -/
theorem c2_rate_limit_backoff_doubles {α : Type} (op : Nat → ApiOutcome α)
    (R d N : Nat) (r : α) (ctx : String)
    (hN : 1 ≤ N) (hNR : N ≤ R)
    (hfail : ∀ i, i < N - 1 →
      ∃ m, op i = ApiOutcome.err m ∧ classify_api_error m = ApiErrorClass.rateLimit)
    (hok : op (N - 1) = ApiOutcome.ok r) :
    (safe_api_request op R d ctx).outcome = Except.ok r ∧
    (safe_api_request op R d ctx).attempts = N ∧
    (safe_api_request op R d ctx).sleeps = (List.range (N - 1)).map (fun a => d * 2 ^ a) ∧
    ∀ a, a + 1 < N - 1 →
      (safe_api_request op R d ctx).sleeps.getD (a + 1) 0
          = 2 * (safe_api_request op R d ctx).sleeps.getD a 0 ∧
      (1 ≤ d → (safe_api_request op R d ctx).sleeps.getD a 0
          < (safe_api_request op R d ctx).sleeps.getD (a + 1) 0) := by
  have h := safe_api_request_go_rate_limited_then_ok op R d ctx r (N - 1) 0 R
    (by omega) (fun i hi1 hi2 => hfail i (by omega)) (by simpa using hok)
  have hrun : safe_api_request op R d ctx =
      ⟨N, (List.range (N - 1)).map (fun a => d * 2 ^ a), Except.ok r⟩ := by
    rw [safe_api_request, h, List.range_eq_range']
    congr 1
    omega
  rw [hrun]
  refine ⟨rfl, rfl, rfl, ?_⟩
  intro a ha
  show ((List.range (N - 1)).map (fun a => d * 2 ^ a)).getD (a + 1) 0
      = 2 * ((List.range (N - 1)).map (fun a => d * 2 ^ a)).getD a 0 ∧ _
  rw [range_map_getD _ _ _ ha, range_map_getD _ _ _ (by omega)]
  constructor
  · ring
  · intro hd
    have h2 : (2 : Nat) ^ a < 2 ^ (a + 1) := Nat.pow_lt_pow_succ (by norm_num)
    exact mul_lt_mul_of_pos_left h2 (by omega)

/-- Witness for C2: two rate-limited failures then success, with
`max_retries = 3` and `retry_delay = 2`; the sleeps are `[2, 4]`. -/
theorem c2_rate_limit_backoff_doubles_witness :
    (safe_api_request
      (fun i => if i < 2 then ApiOutcome.err "Rate limit exceeded" else ApiOutcome.ok 42)
      3 2 "destination generation").outcome = Except.ok 42 ∧
    (safe_api_request
      (fun i => if i < 2 then ApiOutcome.err "Rate limit exceeded" else ApiOutcome.ok 42)
      3 2 "destination generation").attempts = 3 ∧
    (safe_api_request
      (fun i => if i < 2 then ApiOutcome.err "Rate limit exceeded" else ApiOutcome.ok 42)
      3 2 "destination generation").sleeps = [2, 4] := by
  have h := c2_rate_limit_backoff_doubles
    (fun i => if i < 2 then ApiOutcome.err "Rate limit exceeded" else ApiOutcome.ok 42)
    3 2 3 42 "destination generation" (by norm_num) (by norm_num)
    (fun i hi => ⟨"Rate limit exceeded", by simp [show i < 2 from by omega], by decide⟩)
    (by decide)
  exact ⟨h.1, h.2.1, by rw [h.2.2.1]; decide⟩

/-! ## Cache layer -/

/-- Sorting the keyword items is invariant under permutation of the
input: the sorted arrangement of a `pyPairLe`-antisymmetric list is
unique. -/
lemma sortKwargs_eq_of_perm (k1 k2 : List (String × String)) (h : k1.Perm k2) :
    sortKwargs k1 = sortKwargs k2 :=
  List.eq_of_perm_of_sorted
    ((List.perm_insertionSort _ _).trans (h.trans (List.perm_insertionSort _ _).symm))
    (List.sorted_insertionSort _ _) (List.sorted_insertionSort _ _)

/-- C3: `_generate_cache_key` returns the same key for any two
invocations that differ only in the order in which the keyword arguments
are supplied: the hashed canonical string sorts the keyword items by
name, so it does not depend on their supply order. -/
theorem c3_cache_key_ignores_kwargs_order (md5Hex : String → String)
    (pre : String) (args : List String) (kwargs kwargs2 : List (String × String))
    (hperm : kwargs.Perm kwargs2) :
    generate_cache_key md5Hex pre args kwargs
      = generate_cache_key md5Hex pre args kwargs2 := by
  unfold generate_cache_key
  rw [sortKwargs_eq_of_perm kwargs kwargs2 hperm]

/-- Witness for C3 at a concrete pair of reordered keyword lists. -/
theorem c3_cache_key_ignores_kwargs_order_witness :
    generate_cache_key id "destinations" ["5"]
        [("budget", "low"), ("activity", "ski")]
      = generate_cache_key id "destinations" ["5"]
        [("activity", "ski"), ("budget", "low")] :=
  c3_cache_key_ignores_kwargs_order id "destinations" ["5"]
    [("budget", "low"), ("activity", "ski")]
    [("activity", "ski"), ("budget", "low")] (by decide)

/-- C4: with caching enabled, `CacheManager.set` reports success exactly
when at least one tier write succeeded; the resulting durable tier is the
durable write applied to the old durable tier, independently of the
primary tier's state; and a non-raising durable tier always ends up
holding the value. -/
theorem c4_set_always_writes_durable_tier {V : Type} (cm : CacheManager V)
    (key : String) (value : V) (ttl : Option Nat) (cacheTtl : Nat)
    (hen : cm.enabled = true) :
    ((CacheManager.set cm key value ttl cacheTtl).1 =
      ((cm.primary.set key value (effective_ttl ttl cacheTtl)).1
        || (cm.fallback.set key value (effective_ttl ttl cacheTtl)).1)) ∧
    ((CacheManager.set cm key value ttl cacheTtl).2.fallback
      = (cm.fallback.set key value (effective_ttl ttl cacheTtl)).2) ∧
    (∀ p2 : RedisBackend V,
      (CacheManager.set { cm with primary := p2 } key value ttl cacheTtl).2.fallback
        = (CacheManager.set cm key value ttl cacheTtl).2.fallback) ∧
    (cm.fallback.setRaises = false →
      (CacheManager.set cm key value ttl cacheTtl).2.fallback.store key = some value) := by
  refine ⟨?_, ?_, ?_, ?_⟩
  · simp [CacheManager.set, hen]
  · simp [CacheManager.set, hen]
  · intro p2
    simp [CacheManager.set, hen]
  · intro hds
    simp [CacheManager.set, DiskBackend.set, hen, hds]

/-- Witness for C4: enabled manager with an unavailable primary tier;
the overall write succeeds and the durable store holds the value. -/
theorem c4_set_always_writes_durable_tier_witness :
    (CacheManager.set
      ({ primary := ⟨false, fun _ => none, false, false⟩,
         fallback := ⟨fun _ => none, false, false⟩,
         enabled := true } : CacheManager Nat) "k" 7 none 3600).1 = true ∧
    (CacheManager.set
      ({ primary := ⟨false, fun _ => none, false, false⟩,
         fallback := ⟨fun _ => none, false, false⟩,
         enabled := true } : CacheManager Nat) "k" 7 none 3600).2.fallback.store "k"
      = some 7 := by
  have h := c4_set_always_writes_durable_tier
    ({ primary := ⟨false, fun _ => none, false, false⟩,
       fallback := ⟨fun _ => none, false, false⟩,
       enabled := true } : CacheManager Nat) "k" 7 none 3600 rfl
  exact ⟨by rw [h.1]; rfl, h.2.2.2 rfl⟩

/-- C10: with caching disabled, `CacheManager.get` returns `None` for
every key and `CacheManager.set` returns `False` and leaves the whole
manager (both tiers included) untouched. -/
theorem c10_disabled_caching_bypasses_both_tiers {V : Type} (cm : CacheManager V)
    (key : String) (value : V) (ttl : Option Nat) (cacheTtl : Nat)
    (hen : cm.enabled = false) :
    CacheManager.get cm key = none ∧
    CacheManager.set cm key value ttl cacheTtl = (false, cm) := by
  constructor
  · simp [CacheManager.get, hen]
  · simp [CacheManager.set, hen]

/-- Witness for C10 at a concrete disabled manager whose tiers do hold a
value for the key. -/
theorem c10_disabled_caching_bypasses_both_tiers_witness :
    CacheManager.get
      ({ primary := ⟨true, fun _ => some 5, false, false⟩,
         fallback := ⟨fun _ => some 5, false, false⟩,
         enabled := false } : CacheManager Nat) "k" = none ∧
    CacheManager.set
      ({ primary := ⟨true, fun _ => some 5, false, false⟩,
         fallback := ⟨fun _ => some 5, false, false⟩,
         enabled := false } : CacheManager Nat) "k" 7 none 3600
      = (false,
        { primary := ⟨true, fun _ => some 5, false, false⟩,
          fallback := ⟨fun _ => some 5, false, false⟩,
          enabled := false }) :=
  c10_disabled_caching_bypasses_both_tiers
    ({ primary := ⟨true, fun _ => some 5, false, false⟩,
       fallback := ⟨fun _ => some 5, false, false⟩,
       enabled := false } : CacheManager Nat) "k" 7 none 3600 rfl

/-- C5 counterexample: with caching enabled and a faithful durable tier,
`set` followed by `get` can still return a value other than the one just
written.  If the primary tier is available, holds a stale value for the
key, and its write fails (a caught exception, reported as `False`) while
its reads keep working, `get` hits the stale primary value before ever
consulting the durable tier. -/
theorem c5_round_trip_counterexample :
    (({ primary := ⟨true, fun k => if k = "dest" then some 1 else none, false, true⟩,
        fallback := ⟨fun _ => none, false, false⟩,
        enabled := true } : CacheManager Nat)).enabled = true ∧
    (({ primary := ⟨true, fun k => if k = "dest" then some 1 else none, false, true⟩,
        fallback := ⟨fun _ => none, false, false⟩,
        enabled := true } : CacheManager Nat)).fallback.setRaises = false ∧
    (({ primary := ⟨true, fun k => if k = "dest" then some 1 else none, false, true⟩,
        fallback := ⟨fun _ => none, false, false⟩,
        enabled := true } : CacheManager Nat)).fallback.getRaises = false ∧
    CacheManager.get
      (CacheManager.set
        ({ primary := ⟨true, fun k => if k = "dest" then some 1 else none, false, true⟩,
           fallback := ⟨fun _ => none, false, false⟩,
           enabled := true } : CacheManager Nat) "dest" 2 none 3600).2 "dest" = some 1 ∧
    CacheManager.get
      (CacheManager.set
        ({ primary := ⟨true, fun k => if k = "dest" then some 1 else none, false, true⟩,
           fallback := ⟨fun _ => none, false, false⟩,
           enabled := true } : CacheManager Nat) "dest" 2 none 3600).2 "dest" ≠ some 2 := by
  refine ⟨rfl, rfl, rfl, ?_, ?_⟩ <;> decide

/-- C5 (amended): with caching enabled, a faithful durable tier, and a
primary tier that, when available, does not fail its write while keeping
serving reads, `set` then `get` on the same key returns the value just
written — in particular whenever the primary tier is unavailable the
durable tier alone satisfies the read. -/
theorem c5_set_get_round_trip {V : Type} (cm : CacheManager V)
    (key : String) (value : V) (ttl : Option Nat) (cacheTtl : Nat)
    (hen : cm.enabled = true)
    (hds : cm.fallback.setRaises = false) (hdg : cm.fallback.getRaises = false)
    (hp : cm.primary.available = true → cm.primary.setRaises = false) :
    CacheManager.get (CacheManager.set cm key value ttl cacheTtl).2 key = some value := by
  by_cases hav : cm.primary.available = true
  · have hsr := hp hav
    by_cases hgr : cm.primary.getRaises = true
    · simp [CacheManager.get, CacheManager.set, RedisBackend.get, RedisBackend.set,
        DiskBackend.get, DiskBackend.set, hen, hds, hdg, hav, hgr, hsr]
    · simp [CacheManager.get, CacheManager.set, RedisBackend.get, RedisBackend.set,
        DiskBackend.get, DiskBackend.set, hen, hds, hdg, hav, hgr, hsr]
  · simp [CacheManager.get, CacheManager.set, RedisBackend.get, RedisBackend.set,
      DiskBackend.get, DiskBackend.set, hen, hds, hdg, hav]

/-- Witness for the amended C5: primary tier unavailable, durable tier
alone satisfies the read. -/
theorem c5_set_get_round_trip_witness :
    CacheManager.get
      (CacheManager.set
        ({ primary := ⟨false, fun _ => none, false, false⟩,
           fallback := ⟨fun _ => none, false, false⟩,
           enabled := true } : CacheManager Nat) "k" 7 none 3600).2 "k" = some 7 :=
  c5_set_get_round_trip
    ({ primary := ⟨false, fun _ => none, false, false⟩,
       fallback := ⟨fun _ => none, false, false⟩,
       enabled := true } : CacheManager Nat) "k" 7 none 3600 rfl rfl rfl (fun _ => rfl)

/-! ## Fine-tuning job monitor -/

/-- One monitor iteration on a `queued` job: sleep 60 s and poll again. -/
lemma monitor_go_poll_queued (poll : Nat → PollOutcome) (maxWait elapsed polls : Nat)
    (j : FineTuningJob) (hW : ¬ elapsed > maxWait) (hj : poll polls = PollOutcome.job j)
    (hs : j.status = "queued") :
    monitor_go poll maxWait elapsed polls
      = monitor_go poll maxWait (elapsed + 60) (polls + 1) := by
  rw [monitor_go, if_neg hW, hj]
  simp only [hs, String.reduceEq, decide_False, decide_True, Bool.false_or, Bool.or_false,
    Bool.true_or, Bool.or_true, reduceIte, if_true, if_false]

/-- One monitor iteration on a `running` job: sleep 30 s and poll again. -/
lemma monitor_go_poll_running (poll : Nat → PollOutcome) (maxWait elapsed polls : Nat)
    (j : FineTuningJob) (hW : ¬ elapsed > maxWait) (hj : poll polls = PollOutcome.job j)
    (hs : j.status = "running") :
    monitor_go poll maxWait elapsed polls
      = monitor_go poll maxWait (elapsed + 30) (polls + 1) := by
  rw [monitor_go, if_neg hW, hj]
  simp only [hs, String.reduceEq, decide_False, decide_True, Bool.false_or, Bool.or_false,
    Bool.true_or, Bool.or_true, reduceIte, if_true, if_false]

/-- One monitor iteration on a `succeeded` job: return `completed` with
the fine-tuned model id of the polled record, no further poll. -/
lemma monitor_go_poll_succeeded (poll : Nat → PollOutcome) (maxWait elapsed polls : Nat)
    (j : FineTuningJob) (hW : ¬ elapsed > maxWait) (hj : poll polls = PollOutcome.job j)
    (hs : j.status = "succeeded") :
    monitor_go poll maxWait elapsed polls
      = { status := "completed", model_id := j.fine_tuned_model, error := none,
          elapsed_time := elapsed, polls := polls + 1 } := by
  rw [monitor_go, if_neg hW, hj]
  simp only [hs, String.reduceEq, reduceIte, if_true, if_false]

/-- The monitoring run for the status sequence
`queued, running, running, succeeded` within the wait budget. -/
lemma monitor_queued_running_running_succeeded (poll : Nat → PollOutcome) (maxWait : Nat)
    (j0 j1 j2 j3 : FineTuningJob)
    (h0 : poll 0 = PollOutcome.job j0) (s0 : j0.status = "queued")
    (h1 : poll 1 = PollOutcome.job j1) (s1 : j1.status = "running")
    (h2 : poll 2 = PollOutcome.job j2) (s2 : j2.status = "running")
    (h3 : poll 3 = PollOutcome.job j3) (s3 : j3.status = "succeeded")
    (hW : 120 ≤ maxWait) :
    monitor_fine_tuning_job poll maxWait
      = { status := "completed", model_id := j3.fine_tuned_model, error := none,
          elapsed_time := 120, polls := 4 } := by
  unfold monitor_fine_tuning_job
  rw [monitor_go_poll_queued poll maxWait 0 0 j0 (by omega) h0 s0]
  rw [monitor_go_poll_running poll maxWait (0 + 60) (0 + 1) j1 (by omega) (by simpa using h1) s1]
  rw [monitor_go_poll_running poll maxWait (0 + 60 + 30) (0 + 1 + 1) j2 (by omega)
    (by simpa using h2) s2]
  rw [monitor_go_poll_succeeded poll maxWait (0 + 60 + 30 + 30) (0 + 1 + 1 + 1) j3 (by omega)
    (by simpa using h3) s3]

/-- C6: for a job whose successively polled statuses are
`queued, running, running, succeeded` (within the wait budget),
`monitor_fine_tuning_job` returns status `"completed"` with `model_id`
the fine-tuned model identifier of the final polled record, after
exactly 4 status retrievals; and the result is unchanged by the
behaviour of the provider beyond poll 4, so no further poll is issued
after the terminal status. -/
theorem c6_success_after_four_polls (poll : Nat → PollOutcome) (maxWait : Nat)
    (j0 j1 j2 j3 : FineTuningJob)
    (h0 : poll 0 = PollOutcome.job j0) (s0 : j0.status = "queued")
    (h1 : poll 1 = PollOutcome.job j1) (s1 : j1.status = "running")
    (h2 : poll 2 = PollOutcome.job j2) (s2 : j2.status = "running")
    (h3 : poll 3 = PollOutcome.job j3) (s3 : j3.status = "succeeded")
    (hW : 120 ≤ maxWait) :
    monitor_fine_tuning_job poll maxWait
      = { status := "completed", model_id := j3.fine_tuned_model, error := none,
          elapsed_time := 120, polls := 4 } ∧
    ∀ poll2 : Nat → PollOutcome, (∀ i, i < 4 → poll2 i = poll i) →
      monitor_fine_tuning_job poll2 maxWait = monitor_fine_tuning_job poll maxWait := by
  have hmain := monitor_queued_running_running_succeeded poll maxWait j0 j1 j2 j3
    h0 s0 h1 s1 h2 s2 h3 s3 hW
  refine ⟨hmain, ?_⟩
  intro poll2 hag
  rw [hmain, monitor_queued_running_running_succeeded poll2 maxWait j0 j1 j2 j3
    ((hag 0 (by omega)).trans h0) s0 ((hag 1 (by omega)).trans h1) s1
    ((hag 2 (by omega)).trans h2) s2 ((hag 3 (by omega)).trans h3) s3 hW]

/-- Witness for C6 at a concrete poll sequence and `max_wait_time = 3600`. -/
theorem c6_success_after_four_polls_witness :
    monitor_fine_tuning_job
      (fun i => PollOutcome.job
        ⟨["queued", "running", "running", "succeeded"].getD i "queued",
          some "ft:gpt-3.5-turbo:custom", none⟩) 3600
      = { status := "completed", model_id := some "ft:gpt-3.5-turbo:custom", error := none,
          elapsed_time := 120, polls := 4 } :=
  (c6_success_after_four_polls
    (fun i => PollOutcome.job
      ⟨["queued", "running", "running", "succeeded"].getD i "queued",
        some "ft:gpt-3.5-turbo:custom", none⟩) 3600
    ⟨"queued", some "ft:gpt-3.5-turbo:custom", none⟩
    ⟨"running", some "ft:gpt-3.5-turbo:custom", none⟩
    ⟨"running", some "ft:gpt-3.5-turbo:custom", none⟩
    ⟨"succeeded", some "ft:gpt-3.5-turbo:custom", none⟩
    rfl rfl rfl rfl rfl rfl rfl rfl (by norm_num)).1

/-- As long as no poll ever returns a terminal provider status, the
monitor ends with `timeout` or `monitoring_failed` (fuel-indexed
induction on the remaining wait budget). -/
lemma monitor_go_nonterminal (poll : Nat → PollOutcome) (maxWait : Nat)
    (h : ∀ i j, poll i = PollOutcome.job j →
      j.status ≠ "succeeded" ∧ j.status ≠ "failed" ∧ j.status ≠ "cancelled") :
    ∀ fuel elapsed polls, maxWait + 1 - elapsed ≤ fuel →
      (monitor_go poll maxWait elapsed polls).status = "timeout" ∨
      (monitor_go poll maxWait elapsed polls).status = "monitoring_failed" := by
  intro fuel
  induction fuel with
  | zero =>
    intro elapsed polls hf
    rw [monitor_go, if_pos (by omega)]
    exact Or.inl rfl
  | succ n ih =>
    intro elapsed polls hf
    by_cases hW : elapsed > maxWait
    · rw [monitor_go, if_pos hW]
      exact Or.inl rfl
    · rw [monitor_go, if_neg hW]
      cases hp : poll polls with
      | raised m =>
        by_cases h60 : elapsed + 60 > maxWait
        · simp only [if_pos h60]
          exact Or.inr (by trivial)
        · simp only [if_neg h60]
          exact ih (elapsed + 60) (polls + 1) (by omega)
      | job j =>
        obtain ⟨hs, hf2, hc⟩ := h polls j hp
        simp only [if_neg hs, if_neg hf2, if_neg hc]
        split
        · exact ih _ _ (by omega)
        · split
          · exact ih _ _ (by omega)
          · exact ih _ _ (by omega)

/-- If additionally no poll ever raises, the monitor ends with `timeout`
exactly. -/
lemma monitor_go_nonterminal_noraise (poll : Nat → PollOutcome) (maxWait : Nat)
    (h : ∀ i j, poll i = PollOutcome.job j →
      j.status ≠ "succeeded" ∧ j.status ≠ "failed" ∧ j.status ≠ "cancelled")
    (hnr : ∀ i, ∃ j, poll i = PollOutcome.job j) :
    ∀ fuel elapsed polls, maxWait + 1 - elapsed ≤ fuel →
      (monitor_go poll maxWait elapsed polls).status = "timeout" := by
  intro fuel
  induction fuel with
  | zero =>
    intro elapsed polls hf
    rw [monitor_go, if_pos (by omega)]
  | succ n ih =>
    intro elapsed polls hf
    by_cases hW : elapsed > maxWait
    · rw [monitor_go, if_pos hW]
    · rw [monitor_go, if_neg hW]
      cases hp : poll polls with
      | raised m =>
        obtain ⟨j, hj⟩ := hnr polls
        rw [hp] at hj
        exact absurd hj (by simp)
      | job j =>
        obtain ⟨hs, hf2, hc⟩ := h polls j hp
        simp only [if_neg hs, if_neg hf2, if_neg hc]
        split
        · exact ih _ _ (by omega)
        · split
          · exact ih _ _ (by omega)
          · exact ih _ _ (by omega)

/-- C7: when every poll yields a non-terminal status (in-progress,
unrecognized, or a transient polling failure), `monitor_fine_tuning_job`
returns a record whose status is `"timeout"` — or `"monitoring_failed"`
when the polling error path exhausts the same budget — and, being a total
function into `MonitorOutcome`, never propagates an exception to the
caller; when the status queries never fail the result is exactly
`"timeout"`. -/
theorem c7_nonterminal_polls_time_out (poll : Nat → PollOutcome) (maxWait : Nat)
    (h : ∀ i j, poll i = PollOutcome.job j →
      j.status ≠ "succeeded" ∧ j.status ≠ "failed" ∧ j.status ≠ "cancelled") :
    ((monitor_fine_tuning_job poll maxWait).status = "timeout" ∨
     (monitor_fine_tuning_job poll maxWait).status = "monitoring_failed") ∧
    ((∀ i, ∃ j, poll i = PollOutcome.job j) →
      (monitor_fine_tuning_job poll maxWait).status = "timeout") :=
  ⟨monitor_go_nonterminal poll maxWait h (maxWait + 1) 0 0 (by omega),
   fun hnr => monitor_go_nonterminal_noraise poll maxWait h hnr (maxWait + 1) 0 0 (by omega)⟩

/-- Witness for C7: a job that always reports `queued` against a 100 s
budget times out. -/
theorem c7_nonterminal_polls_time_out_witness :
    (monitor_fine_tuning_job (fun _ => PollOutcome.job ⟨"queued", none, none⟩) 100).status
      = "timeout" :=
  (c7_nonterminal_polls_time_out (fun _ => PollOutcome.job ⟨"queued", none, none⟩) 100
    (fun i j hj => by
      cases hj
      exact ⟨by decide, by decide, by decide⟩)).2
    (fun i => ⟨⟨"queued", none, none⟩, rfl⟩)

/-! ## Fallback destination parsing -/

/-- C8 counterexample: the fallback parser does not default the country
to `"Unknown"` when no country segment is present — a line without a
comma is skipped entirely, so the input `"Paris"` yields no destination
at all rather than `("Paris", "Unknown")`. -/
theorem c8_no_unknown_country_default_counterexample :
    fallback_parse_destinations "Paris" = [] ∧
    fallback_parse_destinations "Paris"
      ≠ [{ place := "Paris", country := "Unknown", description := "Generated destination",
           best_time_to_visit := "Year-round", lat := 0, lng := 0, rating := 4 }] := by
  constructor
  · decide
  · decide

/-- C8 (amended): when strict JSON parsing fails, the fallback parser
splits the text on newlines, treats the first comma-delimited segment of
a line as the place and the remainder as the country, skips any line
that has no comma (or starts with a brace or a double quote), and
synthesizes placeholder description, coordinates and rating for every
parsed destination; `"Paris, France\nTokyo, Japan"` yields exactly
(`"Paris"`,`"France"`) and (`"Tokyo"`,`"Japan"`). -/
theorem c8_fallback_parse_line_based :
    fallback_parse_destinations "Paris, France\nTokyo, Japan"
      = [{ place := "Paris", country := "France", description := "Generated destination",
           best_time_to_visit := "Year-round", lat := 0, lng := 0, rating := 4 },
         { place := "Tokyo", country := "Japan", description := "Generated destination",
           best_time_to_visit := "Year-round", lat := 0, lng := 0, rating := 4 }] ∧
    (∀ line, (pySplit line ',').length = 1 → fallback_dest_line line = none) ∧
    (∀ response d, d ∈ fallback_parse_destinations response →
      d.description = "Generated destination" ∧ d.best_time_to_visit = "Year-round" ∧
      d.lat = 0 ∧ d.lng = 0 ∧ d.rating = 4) := by
  refine ⟨by decide, ?_, ?_⟩
  · intro line h
    simp [fallback_dest_line, h]
  · intro response d hd
    unfold fallback_parse_destinations at hd
    rw [List.mem_filterMap] at hd
    obtain ⟨line, hmem, hline⟩ := hd
    simp only [fallback_dest_line] at hline
    split at hline
    · obtain rfl := Option.some.inj hline
      exact ⟨rfl, rfl, rfl, rfl, rfl⟩
    · exact absurd hline (by simp)

/-- Witness for the amended C8: a line without a comma parses to nothing,
and a parsed destination carries the placeholder description. -/
theorem c8_fallback_parse_line_based_witness :
    fallback_dest_line "Paris" = none ∧
    ({ place := "Paris", country := "France", description := "Generated destination",
       best_time_to_visit := "Year-round", lat := 0, lng := 0,
       rating := 4 } : FallbackDestination).description = "Generated destination" := by
  refine ⟨c8_fallback_parse_line_based.2.1 "Paris" (by decide), ?_⟩
  exact (c8_fallback_parse_line_based.2.2 "Paris, France"
    { place := "Paris", country := "France", description := "Generated destination",
      best_time_to_visit := "Year-round", lat := 0, lng := 0, rating := 4 } (by decide)).1

/-! ## Activity-type normalization -/

/-- C9: normalization first consults the composite-type alias table
(`"Cultural/Educational"` normalizes to `Cultural`), otherwise matches
the known categories (exactly or by substring), and otherwise yields the
fixed fallback `Outdoor` (`"Underwater Basketry"` normalizes to
`Outdoor`); as a total function it never raises — the `ValueError` of
the enum constructor is consumed internally. -/
theorem c9_activity_type_normalization :
    normalize_activity_type "Cultural/Educational" = ActivityType.CULTURAL ∧
    normalize_activity_type "Underwater Basketry" = ActivityType.OUTDOOR ∧
    (∀ s, activity_type_mapping.lookup s = none →
      (∀ t ∈ activityTypeOrder, strContains (pyLower s) (pyLower t.value) = false) →
      normalize_activity_type s = ActivityType.OUTDOOR) := by
  refine ⟨by decide, by decide, ?_⟩
  intro s hlook hnosub
  have hex : exact_activity_type s = none := by
    unfold exact_activity_type
    rw [List.find?_eq_none]
    intro t ht heq
    have hts : t.value = s := by simpa using heq
    have hsub := hnosub t ht
    rw [← hts] at hsub
    fin_cases ht <;> exact absurd hsub (by decide)
  have hfind : activityTypeOrder.find?
      (fun t => strContains (pyLower s) (pyLower t.value)) = none := by
    rw [List.find?_eq_none]
    intro t ht
    simp [hnosub t ht]
  simp [normalize_activity_type, hlook, hex, hfind]

/-- Witness for C9: a string matching no alias, no exact value and no
category substring normalizes to `Outdoor`. -/
theorem c9_activity_type_normalization_witness :
    normalize_activity_type "zzz" = ActivityType.OUTDOOR :=
  c9_activity_type_normalization.2.2 "zzz" (by decide) (by decide)
